import Mathlib

/-!
Verification of the Selium messaging broker's core subsystems against a
shallow embedding of its source: the frame codec and per-direction stream
state machine (`protocol/src/codec.rs`), the memory-mapped segment index
(`log/src/index/mmap.rs`), the pub/sub topic actor (`server/src/topic/pubsub.rs`),
the client subscriber stream (`client/src/streams/pubsub/subscriber.rs`) and
the client keep-alive supervisor (`client/src/keep_alive/reqrep.rs`).

Machine integers are embedded as `Nat` (the only arithmetic performed by the
embedded code is subtraction and comparison, where Rust's checked operations
are made explicit). Byte buffers are `List (Fin 256)`.
-/

namespace Selium

/-- A single octet of a wire buffer. -/
abbrev Byte := Fin 256

/-! ## Frame model (`protocol/src/frame.rs` via `protocol/src/codec.rs`)

The stream roles, signal kinds and frame variants used by
`Codec::state`. Topic paths are embedded as their UTF-8 byte sequences. -/

/-- Stream roles, `StreamType` in the source. -/
inductive StreamType
  | publisher
  | subscriber
  | replier
  | requestor
deriving DecidableEq

/-- Broker-to-client signal kinds, `Signal` in the source. -/
inductive Signal
  | cloudAuthFailed
  | invalidTopicName
  | replierAlreadyBound
  | shutdown
  | shutdownInProgress
  | streamClosedPrematurely
  | unknownError
deriving DecidableEq

/-- Frame discriminants tracked by the codec, `FrameType` in the source;
`init` is the initial value of `last_frame`. -/
inductive FrameType
  | init
  | newStream
  | message
  | batch
  | request
  | reply
  | serverRequest
  | serverReply
  | signal
deriving DecidableEq

/-- The protocol frames handled by `Codec::state`. Integer fields carry the
source's `u32` request ids and `u64` client ids as `Nat`. -/
inductive Frame
  | newStream (ty : StreamType) (path : List Byte)
  | message (payload : List Byte)
  | batch (payload : List Byte)
  | request (requestId : Nat) (payload : List Byte)
  | reply (requestId : Nat) (payload : List Byte)
  | serverRequest (clientId : Nat) (requestId : Nat) (payload : List Byte)
  | serverReply (clientId : Nat) (requestId : Nat) (payload : List Byte)
  | signal (s : Signal)
deriving DecidableEq

/-- `Frame::ty`, the discriminant of a frame. -/
def Frame.ty : Frame → FrameType
  | Frame.newStream _ _ => FrameType.newStream
  | Frame.message _ => FrameType.message
  | Frame.batch _ => FrameType.batch
  | Frame.request _ _ => FrameType.request
  | Frame.reply _ _ => FrameType.reply
  | Frame.serverRequest _ _ _ => FrameType.serverRequest
  | Frame.serverReply _ _ _ => FrameType.serverReply
  | Frame.signal _ => FrameType.signal

/-! ## Codec state (`protocol/src/codec.rs`) -/

/-- The stateful part of `Codec`: `last_frame`, the learned `stream_type`
and the bound topic `path`. The `bincode_conf` and `max_frame_size` fields
are constants and are embedded as `maxFrameSize` below. -/
structure Codec where
  lastFrame : FrameType
  streamType : Option StreamType
  path : Option (List Byte)
deriving DecidableEq

/-- `Codec::default()`: `last_frame = Init`, no stream type, no path. -/
def codecDefault : Codec := ⟨FrameType.init, none, none⟩

/-- `MAX_FRAME_SIZE = 1024 * 1024`. -/
def maxFrameSize : Nat := 1024 * 1024

/-- The error cases of `CodecError` reachable in the embedded code. -/
inductive CodecErr
  | decodeFailed
  | frameTooLarge (size maxSize : Nat)
  | frameOutOfOrder (item last : FrameType)
deriving DecidableEq

/-- `Codec::is_publisher`. -/
def Codec.isPublisher (c : Codec) : Bool :=
  decide (c.streamType = some StreamType.publisher)

/-- `Codec::is_subscriber`. -/
def Codec.isSubscriber (c : Codec) : Bool :=
  decide (c.streamType = some StreamType.subscriber)

/-- `Codec::is_replier`. -/
def Codec.isReplier (c : Codec) : Bool :=
  decide (c.streamType = some StreamType.replier)

/-- `Codec::is_requestor`. -/
def Codec.isRequestor (c : Codec) : Bool :=
  decide (c.streamType = some StreamType.requestor)

/-- `Codec::is_valid_newstream`: `sending && self.last_frame == FrameType::Init`. -/
def Codec.isValidNewstream (c : Codec) (sending : Bool) : Bool :=
  sending && decide (c.lastFrame = FrameType.init)

/-- `Codec::is_valid_pubsub`: publisher sending or subscriber receiving, and
`last_frame` among `[NewStream, Message, Batch, Signal]`. -/
def Codec.isValidPubsub (c : Codec) (sending : Bool) : Bool :=
  ((c.isPublisher && sending) || (c.isSubscriber && !sending)) &&
    decide (c.lastFrame = FrameType.newStream ∨ c.lastFrame = FrameType.message ∨
      c.lastFrame = FrameType.batch ∨ c.lastFrame = FrameType.signal)

/-- `Codec::is_valid_reply`: requestor receiving, `last_frame` among
`[Request, Reply, Signal]`. -/
def Codec.isValidReply (c : Codec) (sending : Bool) : Bool :=
  c.isRequestor && !sending &&
    decide (c.lastFrame = FrameType.request ∨ c.lastFrame = FrameType.reply ∨
      c.lastFrame = FrameType.signal)

/-- `Codec::is_valid_request`: requestor sending, `last_frame` among
`[NewStream, Request, Reply, Signal]`. -/
def Codec.isValidRequest (c : Codec) (sending : Bool) : Bool :=
  c.isRequestor && sending &&
    decide (c.lastFrame = FrameType.newStream ∨ c.lastFrame = FrameType.request ∨
      c.lastFrame = FrameType.reply ∨ c.lastFrame = FrameType.signal)

/-- `Codec::is_valid_server_reply`: replier sending, `last_frame` among
`[ServerRequest, ServerReply, Signal]`. -/
def Codec.isValidServerReply (c : Codec) (sending : Bool) : Bool :=
  c.isReplier && sending &&
    decide (c.lastFrame = FrameType.serverRequest ∨ c.lastFrame = FrameType.serverReply ∨
      c.lastFrame = FrameType.signal)

/-- `Codec::is_valid_server_request`: replier receiving, `last_frame` among
`[NewStream, ServerRequest, ServerReply, Signal]`. -/
def Codec.isValidServerRequest (c : Codec) (sending : Bool) : Bool :=
  c.isReplier && !sending &&
    decide (c.lastFrame = FrameType.newStream ∨ c.lastFrame = FrameType.serverRequest ∨
      c.lastFrame = FrameType.serverReply ∨ c.lastFrame = FrameType.signal)

/-- `Codec::state(item, sending)`. Each frame variant is accepted exactly
when its validity check holds (`Signal` is accepted whenever receiving);
on acceptance `last_frame := item.ty()`, and an accepted `NewStream`
additionally records the declared role and topic path. Any other case is
`FrameOutOfOrder(item.ty(), last_frame)`. The source mutates `self` only
on acceptance, so the embedding returns the updated codec in `Except.ok`. -/
def Codec.state (c : Codec) (item : Frame) (sending : Bool) : Except CodecErr Codec :=
  match item with
  | Frame.batch _ | Frame.message _ =>
    if c.isValidPubsub sending then Except.ok { c with lastFrame := item.ty }
    else Except.error (CodecErr.frameOutOfOrder item.ty c.lastFrame)
  | Frame.newStream ty path =>
    if c.isValidNewstream sending then
      Except.ok { lastFrame := FrameType.newStream, streamType := some ty, path := some path }
    else Except.error (CodecErr.frameOutOfOrder FrameType.newStream c.lastFrame)
  | Frame.reply _ _ =>
    if c.isValidReply sending then Except.ok { c with lastFrame := item.ty }
    else Except.error (CodecErr.frameOutOfOrder item.ty c.lastFrame)
  | Frame.request _ _ =>
    if c.isValidRequest sending then Except.ok { c with lastFrame := item.ty }
    else Except.error (CodecErr.frameOutOfOrder item.ty c.lastFrame)
  | Frame.serverReply _ _ _ =>
    if c.isValidServerReply sending then Except.ok { c with lastFrame := item.ty }
    else Except.error (CodecErr.frameOutOfOrder item.ty c.lastFrame)
  | Frame.serverRequest _ _ _ =>
    if c.isValidServerRequest sending then Except.ok { c with lastFrame := item.ty }
    else Except.error (CodecErr.frameOutOfOrder item.ty c.lastFrame)
  | Frame.signal _ =>
    if !sending then Except.ok { c with lastFrame := item.ty }
    else Except.error (CodecErr.frameOutOfOrder item.ty c.lastFrame)

/-! ## Wire serialization

Modelled from the spec: the `bincode` `Encode`/`Decode` implementations and
the `Frame::size` method live in `protocol/src/frame.rs`, whose current
contents in the repository are a commented-out legacy draft; only their
callers (`Codec::encode` / `Codec::decode`) are present. The byte layout
follows spec section 6: every frame is `{ size: u32, kind: u8, body }` in
little-endian, with length-prefixed byte fields, `role: u8`, `kind: u8`
signal discriminants, `request_id: u32` and `client_id: u64`. -/

/-- Little-endian encoding of `n` into `w` bytes (truncating above `256^w`). -/
def natLE : Nat → Nat → List Byte
  | 0, _ => []
  | w + 1, n => (⟨n % 256, Nat.mod_lt _ (by decide)⟩ : Byte) :: natLE w (n / 256)

/-- Little-endian decoding of a byte list. -/
def bytesToNatLE : List Byte → Nat
  | [] => 0
  | b :: rest => b.val + 256 * bytesToNatLE rest

/-- Split off the first `n` bytes of a buffer, or `none` if it is short. -/
def takeBytes (n : Nat) (bs : List Byte) : Option (List Byte × List Byte) :=
  if n ≤ bs.length then some (bs.take n, bs.drop n) else none

/-- Read a `w`-byte little-endian unsigned integer. -/
def parseUInt (w : Nat) (bs : List Byte) : Option (Nat × List Byte) :=
  match takeBytes w bs with
  | some (pre, rest) => some (bytesToNatLE pre, rest)
  | none => none

/-- A length-prefixed byte field: `length: u32 || bytes`. -/
def writeLenPrefixed (bs : List Byte) : List Byte :=
  natLE 4 bs.length ++ bs

/-- Read a length-prefixed byte field. -/
def parseLenPrefixed (bs : List Byte) : Option (List Byte × List Byte) :=
  match parseUInt 4 bs with
  | some (len, rest) => takeBytes len rest
  | none => none

/-- Modelled from the spec: the `role: u8` discriminant of a `NewStream` body. -/
def roleByte : StreamType → Byte
  | StreamType.publisher => 0
  | StreamType.subscriber => 1
  | StreamType.replier => 2
  | StreamType.requestor => 3

/-- Inverse of `roleByte`; unknown bytes are a decode failure. -/
def roleOfByte (b : Byte) : Option StreamType :=
  if b.val = 0 then some StreamType.publisher
  else if b.val = 1 then some StreamType.subscriber
  else if b.val = 2 then some StreamType.replier
  else if b.val = 3 then some StreamType.requestor
  else none

/-- Modelled from the spec: the `kind: u8` discriminant of a `Signal` body,
in the order the signal kinds are listed in spec section 3. -/
def signalByte : Signal → Byte
  | Signal.cloudAuthFailed => 0
  | Signal.invalidTopicName => 1
  | Signal.replierAlreadyBound => 2
  | Signal.shutdown => 3
  | Signal.shutdownInProgress => 4
  | Signal.streamClosedPrematurely => 5
  | Signal.unknownError => 6

/-- Inverse of `signalByte`. -/
def signalOfByte (b : Byte) : Option Signal :=
  if b.val = 0 then some Signal.cloudAuthFailed
  else if b.val = 1 then some Signal.invalidTopicName
  else if b.val = 2 then some Signal.replierAlreadyBound
  else if b.val = 3 then some Signal.shutdown
  else if b.val = 4 then some Signal.shutdownInProgress
  else if b.val = 5 then some Signal.streamClosedPrematurely
  else if b.val = 6 then some Signal.unknownError
  else none

/-- Modelled from the spec: the `kind: u8` frame discriminant, in the order
the frame variants are listed in spec section 6. -/
def kindByte : Frame → Byte
  | Frame.newStream _ _ => 0
  | Frame.message _ => 1
  | Frame.batch _ => 2
  | Frame.request _ _ => 3
  | Frame.reply _ _ => 4
  | Frame.serverRequest _ _ _ => 5
  | Frame.serverReply _ _ _ => 6
  | Frame.signal _ => 7

/-- Modelled from the spec: the body encoding of each frame variant
(spec section 6). -/
def frameBody : Frame → List Byte
  | Frame.newStream ty path => roleByte ty :: writeLenPrefixed path
  | Frame.message b => writeLenPrefixed b
  | Frame.batch b => writeLenPrefixed b
  | Frame.request rid b => natLE 4 rid ++ writeLenPrefixed b
  | Frame.reply rid b => natLE 4 rid ++ writeLenPrefixed b
  | Frame.serverRequest cid rid b => natLE 8 cid ++ natLE 4 rid ++ writeLenPrefixed b
  | Frame.serverReply cid rid b => natLE 8 cid ++ natLE 4 rid ++ writeLenPrefixed b
  | Frame.signal s => [signalByte s]

/-- Modelled from the spec: the byte length of the complete framed record
`{ size: u32, kind: u8, body }` that `Frame::size` reports and
`MAX_FRAME_SIZE` bounds. -/
def frameSize (f : Frame) : Nat := 4 + 1 + (frameBody f).length

/-- Modelled from the spec: serialize one frame as
`size: u32 || kind: u8 || body`, with `size` covering `kind || body`. -/
def serializeFrame (f : Frame) : List Byte :=
  natLE 4 (1 + (frameBody f).length) ++ (kindByte f :: frameBody f)

/-- Outcome of deserializing one frame from a buffer: a complete frame plus
the remaining bytes, a short read (`bincode`'s `UnexpectedEnd`, which
`Codec::decode` converts into "need more bytes"), or a malformed buffer. -/
inductive DeserRes
  | done (f : Frame) (rest : List Byte)
  | needMore
  | malformed
deriving DecidableEq

/-- Parse a `NewStream` body. -/
def parseNewStream (bs : List Byte) : DeserRes :=
  match bs with
  | [] => DeserRes.needMore
  | rb :: r1 =>
    match roleOfByte rb with
    | none => DeserRes.malformed
    | some ty =>
      match parseLenPrefixed r1 with
      | none => DeserRes.needMore
      | some (p, rest) => DeserRes.done (Frame.newStream ty p) rest

/-- Parse a length-prefixed-payload body (`Message` / `Batch`). -/
def parsePayloadBody (mk : List Byte → Frame) (bs : List Byte) : DeserRes :=
  match parseLenPrefixed bs with
  | none => DeserRes.needMore
  | some (b, rest) => DeserRes.done (mk b) rest

/-- Parse a `request_id: u32 || bytes` body (`Request` / `Reply`). -/
def parseRequestBody (mk : Nat → List Byte → Frame) (bs : List Byte) : DeserRes :=
  match parseUInt 4 bs with
  | none => DeserRes.needMore
  | some (rid, r1) =>
    match parseLenPrefixed r1 with
    | none => DeserRes.needMore
    | some (b, rest) => DeserRes.done (mk rid b) rest

/-- Parse a `client_id: u64 || request_id: u32 || bytes` body
(`ServerRequest` / `ServerReply`). -/
def parseServerBody (mk : Nat → Nat → List Byte → Frame) (bs : List Byte) : DeserRes :=
  match parseUInt 8 bs with
  | none => DeserRes.needMore
  | some (cid, r1) =>
    match parseUInt 4 r1 with
    | none => DeserRes.needMore
    | some (rid, r2) =>
      match parseLenPrefixed r2 with
      | none => DeserRes.needMore
      | some (b, rest) => DeserRes.done (mk cid rid b) rest

/-- Parse a `Signal` body. -/
def parseSignal (bs : List Byte) : DeserRes :=
  match bs with
  | [] => DeserRes.needMore
  | sb :: rest =>
    match signalOfByte sb with
    | none => DeserRes.malformed
    | some s => DeserRes.done (Frame.signal s) rest

/-- Dispatch on the `kind: u8` discriminant and parse the body. -/
def dispatchKind (k : Byte) (r2 : List Byte) : DeserRes :=
  if k.val = 0 then parseNewStream r2
  else if k.val = 1 then parsePayloadBody Frame.message r2
  else if k.val = 2 then parsePayloadBody Frame.batch r2
  else if k.val = 3 then parseRequestBody Frame.request r2
  else if k.val = 4 then parseRequestBody Frame.reply r2
  else if k.val = 5 then parseServerBody Frame.serverRequest r2
  else if k.val = 6 then parseServerBody Frame.serverReply r2
  else if k.val = 7 then parseSignal r2
  else DeserRes.malformed

/-- Modelled from the spec: deserialize one frame from a buffer, reading the
`size: u32` prefix, the `kind: u8` discriminant and the body. -/
def deserializeFrame (bs : List Byte) : DeserRes :=
  match takeBytes 4 bs with
  | none => DeserRes.needMore
  | some (_, r1) =>
    match r1 with
    | [] => DeserRes.needMore
    | k :: r2 => dispatchKind k r2

/-- `Codec::encode` (`Encoder::encode`): run the state transition first;
then reject with `FrameTooLarge` if `item.size()` exceeds `max_frame_size`
(before any byte is written); otherwise append the serialized record to the
output buffer. Returns the codec, the output buffer and the `Result<()>`. -/
def encodeFrame (c : Codec) (f : Frame) (dst : List Byte) :
    Codec × List Byte × Except CodecErr Unit :=
  match c.state f true with
  | Except.error e => (c, dst, Except.error e)
  | Except.ok c2 =>
    if frameSize f > maxFrameSize then
      (c2, dst, Except.error (CodecErr.frameTooLarge (frameSize f) maxFrameSize))
    else
      (c2, dst ++ serializeFrame f, Except.ok ())

/-- `Codec::decode` (`Decoder::decode`): deserialize one frame (a short
buffer yields `Ok(None)`, a malformed one an error), then run the state
transition with `sending = false`. -/
def decodeFrame (c : Codec) (buf : List Byte) : Codec × Except CodecErr (Option Frame) :=
  match deserializeFrame buf with
  | DeserRes.needMore => (c, Except.ok none)
  | DeserRes.malformed => (c, Except.error CodecErr.decodeFailed)
  | DeserRes.done f _ =>
    match c.state f false with
    | Except.ok c2 => (c2, Except.ok (some f))
    | Except.error e => (c, Except.error e)

/-- Well-formedness of a frame's integer fields for the wire format:
payload lengths and `u32` fields below `2^32`, `u64` fields below `2^64`. -/
def wfFrame : Frame → Prop
  | Frame.newStream _ path => path.length < 256 ^ 4
  | Frame.message b => b.length < 256 ^ 4
  | Frame.batch b => b.length < 256 ^ 4
  | Frame.request rid b => rid < 256 ^ 4 ∧ b.length < 256 ^ 4
  | Frame.reply rid b => rid < 256 ^ 4 ∧ b.length < 256 ^ 4
  | Frame.serverRequest cid rid b => cid < 256 ^ 8 ∧ rid < 256 ^ 4 ∧ b.length < 256 ^ 4
  | Frame.serverReply cid rid b => cid < 256 ^ 8 ∧ rid < 256 ^ 4 ∧ b.length < 256 ^ 4
  | Frame.signal _ => True

/-! ## Memory-mapped index (`log/src/index/mmap.rs`)

The index file is a fixed array of `C` 16-byte slots; each slot is an
`IndexEntry` `(relative_offset: u32, file_position: u32, timestamp: u64)`
(layout per spec section 3; `index/entry.rs` itself is not in the sources).
The map is embedded as a `List IndexEntry` of length `C`, one element per
16-byte slot; reading a slot's leading `u32` (`slice.get_u32()`) is reading
its `relativeOffset` field. -/

/-- One index slot, `IndexEntry` in the source. -/
structure IndexEntry where
  relativeOffset : Nat
  filePosition : Nat
  timestamp : Nat
deriving DecidableEq

/-- The all-zero slot: the sentinel for "unused". -/
def zeroEntry : IndexEntry := ⟨0, 0, 0⟩

/-- `Mmap::create`: a fresh index of capacity `c` is `c` zeroed slots. -/
def createIndex (c : Nat) : List IndexEntry := List.replicate c zeroEntry

/-- `Mmap::push`: splice the entry into slot `relative_offset - 1`.
The source panics when the slot is out of range; the embedding returns
`none` there. -/
def pushIndex (slots : List IndexEntry) (e : IndexEntry) : Option (List IndexEntry) :=
  if e.relativeOffset - 1 < slots.length then some (slots.set (e.relativeOffset - 1) e)
  else none

/-- `Mmap::find`: iterate `get_offset_range()` — every slot index from `0`
to capacity, in order — deserialize each slot and return the first entry
satisfying the predicate. -/
def mmapFind (slots : List IndexEntry) (p : IndexEntry → Bool) : Option IndexEntry :=
  match slots with
  | [] => none
  | e :: rest => if p e then some e else mmapFind rest p

/-- `Mmap::get_last_offset`: the leading `u32` of the last slot. The source
indexes `mmap.len() - 16`, so capacity `0` (which would panic) is out of
scope; the embedding returns `0` there. -/
def getLastOffset (slots : List IndexEntry) : Nat :=
  ((slots.getLast?).getD zeroEntry).relativeOffset

/-- The scan loop inside `Mmap::get_current_offset`: return `i` for the
first slot index `i` whose leading `u32` is zero. -/
def firstZeroScan : List IndexEntry → Nat → Option Nat
  | [], _ => none
  | e :: rest, i =>
    if e.relativeOffset = 0 then some i else firstZeroScan rest (i + 1)

/-- `Mmap::get_current_offset`: if the last slot is non-zero return its
offset; otherwise scan the slots in order and return the index of the first
zeroed slot; if the loop finds none, return `1`. -/
def getCurrentOffset (slots : List IndexEntry) : Nat :=
  let lastOffset := getLastOffset slots
  if lastOffset ≠ 0 then lastOffset
  else
    match firstZeroScan slots 0 with
    | some i => i
    | none => 1

/-! ## Pub/sub topic actor (`server/src/topic/pubsub.rs`) -/

/-- A subscriber's requested starting position, `Offset` in the source. -/
inductive Offset
  | fromBeginning (n : Nat)
  | fromEnd (n : Nat)
deriving DecidableEq

/-- Rust's `u64::checked_sub`. -/
def checkedSub (a b : Nat) : Option Nat :=
  if b ≤ a then some (a - b) else none

/-- The offset translation in `Topic::run` for a subscriber registration
(`Socket::Sink`): `FromBeginning(n)` is used as-is; `FromEnd(n)` is
`entries.checked_sub(n).unwrap_or(entries)`. -/
def subscriberLogOffset (entries : Nat) (o : Offset) : Nat :=
  match o with
  | Offset.fromBeginning n => n
  | Offset.fromEnd n => (checkedSub entries n).getD entries

/-- The frames a publisher channel can deliver to the topic actor. The
server-side `Frame` enum is the legacy set in `protocol/src/frame.rs`
(`Message`, `BatchMessage`, `Error`, `Ok`, plus registration frames that
never reach `Topic::run`); `batch_size()`/`message()` per the spec are `1`
and the records for `Message`, `N` and the records for `BatchMessage`. -/
inductive ServerFrame
  | message (records : List Nat)
  | batchMessage (records : List Nat) (size : Nat)
  | errorFrame (code : Nat)
  | okFrame
deriving DecidableEq

/-- One record bundled into the message log: `Message::batch(records,
batch_size, version)` with `version = 1` as in `Topic::run`. -/
structure LogMessage where
  records : List Nat
  batchSize : Nat
  version : Nat
deriving DecidableEq

/-- Topic-actor failures that `Topic::run` can surface. -/
inductive TopicErr
  | logWrite (e : Nat)
  | notifySubscribers
deriving DecidableEq

/-- The publisher-frame arm of `Topic::run`'s select loop: if the frame is
`Message` or `BatchMessage`, bundle `(records, batch_size, 1)` and append it
to the log; any other frame falls through the `if let` and the loop simply
continues — no write, no error. -/
def topicHandleFrame (log : List LogMessage) (f : ServerFrame) :
    Except TopicErr (List LogMessage) :=
  match f with
  | ServerFrame.message records => Except.ok (log ++ [⟨records, 1, 1⟩])
  | ServerFrame.batchMessage records size => Except.ok (log ++ [⟨records, size, 1⟩])
  | _ => Except.ok log

/-! ## Client subscriber stream (`client/src/streams/pubsub/subscriber.rs`)

`Subscriber::poll_next` is embedded as a function of the subscriber's
`message_batch` state and a script of events the underlying `BiStream`
produces (each `poll_next_unpin` consumes one event; an empty script is the
pending case). The decoder, decompressor and `decode_message_batch` (from
`protocol/src/utils.rs`, not in the sources) are parameters. -/

/-- Client-side frames as matched by `Subscriber::poll_next` (the legacy
frame set: `Message`, `BatchMessage`, and the catch-all covers `Error`,
`Ok` and registration frames). `Message` headers are dropped: `poll_next`
only reads `payload.message`. -/
inductive ClientFrame
  | message (payload : List Nat)
  | batchMessage (payload : List Nat)
  | errorFrame (code : Nat)
  | okFrame
deriving DecidableEq

/-- Client-side error values: an error item from the underlying stream, a
`CodecError::DecodeFailure` or a `CodecError::DecompressFailure`. -/
inductive SubErr
  | stream (e : Nat)
  | decodeFailure (e : Nat)
  | decompressFailure (e : Nat)
deriving DecidableEq

/-- One event from the underlying framed stream: an item
(`Some(Ok(frame))` or `Some(Err(e))`) or end of stream (`None`). -/
inductive StreamEv
  | item (r : Except SubErr ClientFrame)
  | closed

/-- The value of `Poll<Option<Result<Item>>>` with decoded items as `Nat`. -/
inductive SubPoll
  | pending
  | ready (r : Option (Except SubErr Nat))

/-- `self.message_batch.as_mut().and_then(|b| b.pop())`: pop the last
element of the current batch, if any. -/
def batchPop : Option (List (List Nat)) → Option (List Nat × Option (List (List Nat)))
  | none => none
  | some l =>
    match l.getLast? with
    | none => none
    | some x => some (x, some l.dropLast)

/-- `Subscriber::decode_message`: decode the bytes, wrapping a failure in
`CodecError::DecodeFailure`. -/
def decodeMessageRes (dec : List Nat → Except Nat Nat) (bytes : List Nat) :
    Except SubErr Nat :=
  match dec bytes with
  | Except.ok v => Except.ok v
  | Except.error e => Except.error (SubErr.decodeFailure e)

/-- The optional decompression step, wrapping a failure in
`CodecError::DecompressFailure`. -/
def decompResult (decomp : Option (List Nat → Except Nat (List Nat)))
    (b : List Nat) : Except SubErr (List Nat) :=
  match decomp with
  | none => Except.ok b
  | some d =>
    match d b with
    | Except.ok b2 => Except.ok b2
    | Except.error e => Except.error (SubErr.decompressFailure e)

/-- `Subscriber::poll_next`: pop from the current batch if possible;
otherwise consume one stream event: end of stream and non-`Message`/
`BatchMessage` frames yield `Ready(None)`, errors are passed through, a
`Message` is decompressed and decoded, and a `BatchMessage` sets the batch
and re-enters `poll_next`. Returns the new batch state and the poll. -/
def subPollNext (dec : List Nat → Except Nat Nat)
    (decomp : Option (List Nat → Except Nat (List Nat)))
    (dbatch : List Nat → List (List Nat)) :
    Option (List (List Nat)) → List StreamEv → Option (List (List Nat)) × SubPoll
  | batch, evs =>
    match batchPop batch with
    | some (bytes, batch2) => (batch2, SubPoll.ready (some (decodeMessageRes dec bytes)))
    | none =>
      match evs with
      | [] => (batch, SubPoll.pending)
      | StreamEv.closed :: _ => (batch, SubPoll.ready none)
      | StreamEv.item (Except.error e) :: _ => (batch, SubPoll.ready (some (Except.error e)))
      | StreamEv.item (Except.ok f) :: rest =>
        match f with
        | ClientFrame.message p =>
          match decompResult decomp p with
          | Except.error e => (batch, SubPoll.ready (some (Except.error e)))
          | Except.ok p2 => (batch, SubPoll.ready (some (decodeMessageRes dec p2)))
        | ClientFrame.batchMessage b =>
          match decompResult decomp b with
          | Except.error e => (batch, SubPoll.ready (some (Except.error e)))
          | Except.ok b2 => subPollNext dec decomp dbatch (some (dbatch b2)) rest
        | _ => (batch, SubPoll.ready none)

/-! ## Client keep-alive (`client/src/keep_alive/reqrep.rs`)

`KeepAlive::request` and `KeepAlive::try_reconnect` are embedded with the
backoff iterator as the list of its remaining delays and the outcomes of
the fallible awaits (`stream.request`, `reestablish_connection`) supplied
by scripts: reconnection outcomes are a function of the global reconnect
attempt number, request outcomes a finite list (one per `stream.request`
call; the model answers `none` if the loop outlives the script). -/

/-- Outcome of one `T::reestablish_connection` await. -/
inductive RecOut
  | success
  | recov
  | unrecov (e : Nat)
deriving DecidableEq

/-- Outcome of one `stream.request` await, classified by
`is_recoverable_error`. -/
inductive ReqOut
  | okVal (v : Nat)
  | errRec
  | errUnrec (e : Nat)
deriving DecidableEq

/-- Errors surfaced by the keep-alive supervisor. -/
inductive KAErr
  | tooManyRetries
  | unrec (e : Nat)
deriving DecidableEq

/-- `KeepAlive::try_reconnect`: pop the next backoff attempt (an exhausted
iterator is `TooManyRetries`), sleep its delay, then try to reconnect:
success swaps the stream in and returns, a recoverable error loops, an
unrecoverable error is returned. Returns the `Result` (with the remaining
iterator and next attempt number on success) and the list of slept delays. -/
def tryReconnect : List Nat → (Nat → RecOut) → Nat →
    Except KAErr (List Nat × Nat) × List Nat
  | [], _, _ => (Except.error KAErr.tooManyRetries, [])
  | d :: rest, recon, i =>
    match recon i with
    | RecOut.success => (Except.ok (rest, i + 1), [d])
    | RecOut.recov =>
      let r := tryReconnect rest recon (i + 1)
      (r.1, d :: r.2)
    | RecOut.unrecov e => (Except.error (KAErr.unrec e), [d])

/-- The loop of `KeepAlive::request`: try the request; return the value on
success and the error immediately if it is unrecoverable; on a recoverable
error run `try_reconnect` (threading the one backoff iterator created per
`request` call) and loop. Returns `none` if the outcome script runs out,
paired with all delays slept. -/
def requestLoop : List ReqOut → List Nat → (Nat → RecOut) → Nat →
    Option (Except KAErr Nat) × List Nat
  | [], _, _, _ => (none, [])
  | ReqOut.okVal v :: _, _, _, _ => (some (Except.ok v), [])
  | ReqOut.errUnrec e :: _, _, _, _ => (some (Except.error (KAErr.unrec e)), [])
  | ReqOut.errRec :: rest, atts, recon, i =>
    match tryReconnect atts recon i with
    | (Except.error e, sleeps) => (some (Except.error e), sleeps)
    | (Except.ok (rem, i2), sleeps) =>
      let r := requestLoop rest rem recon i2
      (r.1, sleeps ++ r.2)

/-- `KeepAlive::request`: the loop with a fresh attempt iterator. -/
def kaRequest (outs : List ReqOut) (atts : List Nat) (recon : Nat → RecOut) :
    Option (Except KAErr Nat) × List Nat :=
  requestLoop outs atts recon 0

/-- A payload one byte heavier than one mebibyte once framed. -/
def bigPayload : List Byte := List.replicate maxFrameSize 0

/-- A publisher codec mid-stream, as left by a sent `NewStream(Publisher)`
followed by a sent `Message`. -/
def pubCodec : Codec := ⟨FrameType.message, some StreamType.publisher, some []⟩

/-! ## Theorems -/

/-- C1: the claim says a subscriber with `FromEnd(k)` on a topic with `e`
entries starts at `max(0, e - k)`, in particular `0` when `k > e`. The code
computes `entries.checked_sub(k).unwrap_or(entries)`: when `k > e` the
subtraction underflows and the fallback is `e` itself, not `0`. At `e = 1`,
`k = 2` the code yields offset `1` while the claim requires `0`. -/
theorem c1_fromEnd_not_clamped_to_zero :
    (∀ e k, subscriberLogOffset e (Offset.fromEnd k) = if k ≤ e then e - k else e) ∧
    subscriberLogOffset 1 (Offset.fromEnd 2) = 1 ∧
    max (0 : Int) (1 - 2) = 0 := by
  refine ⟨fun e k => ?_, by decide, by decide⟩
  by_cases h : k ≤ e <;> simp [subscriberLogOffset, checkedSub, h]

/-- C2: the claim says `get_current_offset` returns `k + 1` after `k`
pushes (`1` on an empty index). Evaluating the code on a capacity-3 index:
after `k = 0, 1, 2, 3` pushes of entries with relative offsets `1..k` it
returns `0, 1, 2, 3` — always `k`, never `k + 1` — because the scan returns
the 0-based position of the first zeroed slot (so the empty index yields
`0`, making the code's own "return 1 if nothing is written" fallback dead),
and a full index returns the last slot's offset `C` unchanged. -/
theorem c2_current_offset_returns_k_not_k_plus_one :
    getCurrentOffset (createIndex 3) = 0 ∧
    pushIndex (createIndex 3) ⟨1, 0, 10⟩ = some [⟨1, 0, 10⟩, zeroEntry, zeroEntry] ∧
    getCurrentOffset [⟨1, 0, 10⟩, zeroEntry, zeroEntry] = 1 ∧
    pushIndex [⟨1, 0, 10⟩, zeroEntry, zeroEntry] ⟨2, 24, 11⟩ =
      some [⟨1, 0, 10⟩, ⟨2, 24, 11⟩, zeroEntry] ∧
    getCurrentOffset [⟨1, 0, 10⟩, ⟨2, 24, 11⟩, zeroEntry] = 2 ∧
    pushIndex [⟨1, 0, 10⟩, ⟨2, 24, 11⟩, zeroEntry] ⟨3, 48, 12⟩ =
      some [⟨1, 0, 10⟩, ⟨2, 24, 11⟩, ⟨3, 48, 12⟩] ∧
    getCurrentOffset [⟨1, 0, 10⟩, ⟨2, 24, 11⟩, ⟨3, 48, 12⟩] = 3 := by
  decide

/-- C4 counterexample: on a freshly created capacity-1 index (one zeroed
slot, zero populated entries) the always-true predicate makes `find` return
the all-zero unused slot, contradicting the claim that zero-valued slots
are never returned for any predicate. -/
theorem c4_counterexample :
    mmapFind (createIndex 1) (fun _ => true) = some zeroEntry ∧
    zeroEntry.relativeOffset = 0 := by
  decide

/-- `find` over a block of zeroed slots yields nothing when the predicate
rejects the all-zero entry. -/
theorem mmapFind_replicate_zero (m : Nat) (p : IndexEntry → Bool)
    (hp : p zeroEntry = false) :
    mmapFind (List.replicate m zeroEntry) p = none := by
  induction m with
  | zero => rfl
  | succ n ih => simp [List.replicate_succ, mmapFind, hp, ih]

/-- C4 amended: `find` iterates over all `C` slots in order — populated or
not — and returns the first deserialized entry satisfying the predicate; a
zeroed slot can be returned when the predicate holds on the all-zero entry.
For every predicate that rejects the all-zero entry, `find` on an index
whose populated entries form the prefix `es` (the remaining slots zeroed)
returns the first populated match, as the claim intends. -/
theorem c4_find_first_populated_match (es : List IndexEntry) (m : Nat)
    (p : IndexEntry → Bool) (hp : p zeroEntry = false) :
    mmapFind (es ++ List.replicate m zeroEntry) p = es.find? p := by
  induction es with
  | nil => simpa [mmapFind, List.find?] using mmapFind_replicate_zero m p hp
  | cons e rest ih =>
    cases hpe : p e
    · simp [mmapFind, List.find?, hpe, ih]
    · simp [mmapFind, List.find?, hpe]

/-- Witness for C4's amended theorem at a concrete index and predicate. -/
theorem c4_find_witness :
    mmapFind ([(⟨1, 0, 10⟩ : IndexEntry)] ++ List.replicate 2 zeroEntry)
        (fun e => e.relativeOffset == 1) =
      List.find? (fun e => e.relativeOffset == 1) [⟨1, 0, 10⟩] :=
  c4_find_first_populated_match [⟨1, 0, 10⟩] 2 (fun e => e.relativeOffset == 1) rfl

/-- C5 counterexample: an `Error` frame arriving on a publisher channel is
neither written to the log nor treated as an error — `Topic::run`'s
`if let Frame::Message | Frame::BatchMessage` has no else branch, so the
frame is silently dropped, contradicting the claim that it is a protocol
error. -/
theorem c5_counterexample :
    topicHandleFrame [] (ServerFrame.errorFrame 0) = Except.ok [] := rfl

/-- C5 amended: only `Message` and `BatchMessage` frames are written to the
log (with batch sizes 1 and N respectively); any other frame from a
registered publisher is silently ignored — the log is unchanged and no
error is raised. -/
theorem c5_non_message_frames_ignored (log : List LogMessage) (f : ServerFrame) :
    ((∀ r, f ≠ ServerFrame.message r) → (∀ r n, f ≠ ServerFrame.batchMessage r n) →
      topicHandleFrame log f = Except.ok log) ∧
    (∀ r, topicHandleFrame log (ServerFrame.message r) = Except.ok (log ++ [⟨r, 1, 1⟩])) ∧
    (∀ r n, topicHandleFrame log (ServerFrame.batchMessage r n) =
      Except.ok (log ++ [⟨r, n, 1⟩])) := by
  refine ⟨?_, fun r => rfl, fun r n => rfl⟩
  intro h1 h2
  cases f with
  | message r => exact absurd rfl (h1 r)
  | batchMessage r n => exact absurd rfl (h2 r n)
  | errorFrame c => rfl
  | okFrame => rfl

/-- Witness for C5's amended theorem: an `Ok` frame leaves the log
untouched and raises nothing. -/
theorem c5_witness : topicHandleFrame [] ServerFrame.okFrame = Except.ok [] :=
  (c5_non_message_frames_ignored [] ServerFrame.okFrame).1
    (fun _ h => ServerFrame.noConfusion h) (fun _ _ h => ServerFrame.noConfusion h)

/-- C6: `state` accepts a `NewStream` frame exactly when it is being sent
and `last_frame` is still `Init`; on acceptance the codec records the
declared role as `stream_type` and the declared topic path, and a further
`NewStream` in either direction is rejected; every other outcome is
`FrameOutOfOrder`. -/
theorem c6_newstream_accepted_iff_fresh_sender (c : Codec) (ty : StreamType)
    (p : List Byte) (sending : Bool) :
    (sending = true ∧ c.lastFrame = FrameType.init →
      c.state (Frame.newStream ty p) sending =
        Except.ok ⟨FrameType.newStream, some ty, some p⟩) ∧
    (¬(sending = true ∧ c.lastFrame = FrameType.init) →
      c.state (Frame.newStream ty p) sending =
        Except.error (CodecErr.frameOutOfOrder FrameType.newStream c.lastFrame)) ∧
    (∀ c2 ty2 p2 s2, c.state (Frame.newStream ty p) sending = Except.ok c2 →
      c2.state (Frame.newStream ty2 p2) s2 =
        Except.error (CodecErr.frameOutOfOrder FrameType.newStream FrameType.newStream)) := by
  refine ⟨?_, ?_, ?_⟩
  · rintro ⟨hs, hl⟩
    simp [Codec.state, Codec.isValidNewstream, hs, hl]
  · intro h
    have hv : c.isValidNewstream sending = false := by
      cases sending
      · simp [Codec.isValidNewstream]
      · by_cases hl : c.lastFrame = FrameType.init
        · exact absurd ⟨rfl, hl⟩ h
        · simp [Codec.isValidNewstream, hl]
    simp [Codec.state, hv]
  · intro c2 ty2 p2 s2 hok
    cases hv : c.isValidNewstream sending with
    | false => simp [Codec.state, hv] at hok
    | true =>
      simp [Codec.state, hv] at hok
      subst hok
      simp [Codec.state, Codec.isValidNewstream]

/-- Witness for C6 on the default codec sending its header. -/
theorem c6_witness :
    Codec.state codecDefault (Frame.newStream StreamType.publisher [47]) true =
      Except.ok ⟨FrameType.newStream, some StreamType.publisher, some [47]⟩ :=
  (c6_newstream_accepted_iff_fresh_sender codecDefault StreamType.publisher [47] true).1
    ⟨rfl, rfl⟩

/-- C7 counterexample: the legal sequence `send NewStream(Replier)`,
`receive Signal`, `send ServerReply` is accepted by `state` even though no
`ServerRequest` was ever processed — a received `Signal` puts `Signal` into
`last_frame`, which `is_valid_server_reply` accepts — contradicting the
claim that a reply can never be sent before a request regardless of
intervening frames. -/
theorem c7_counterexample :
    Codec.state codecDefault (Frame.newStream StreamType.replier [47]) true =
      Except.ok ⟨FrameType.newStream, some StreamType.replier, some [47]⟩ ∧
    Codec.state ⟨FrameType.newStream, some StreamType.replier, some [47]⟩
        (Frame.signal Signal.unknownError) false =
      Except.ok ⟨FrameType.signal, some StreamType.replier, some [47]⟩ ∧
    Codec.state ⟨FrameType.signal, some StreamType.replier, some [47]⟩
        (Frame.serverReply 0 0 []) true =
      Except.ok ⟨FrameType.serverReply, some StreamType.replier, some [47]⟩ :=
  ⟨rfl, rfl, rfl⟩

/-- C7 amended: sending a `ServerReply` is accepted exactly when the codec
is a replier and the last processed frame is `ServerRequest`, `ServerReply`
or `Signal`. Hence a reply directly after the `NewStream` header is
rejected with `FrameOutOfOrder`, but a received `Signal` re-enables sending
a reply even when no request was ever processed. -/
theorem c7_server_reply_guard (c : Codec) (cid rid : Nat) (b : List Byte) :
    ((∃ c2, c.state (Frame.serverReply cid rid b) true = Except.ok c2) ↔
      c.streamType = some StreamType.replier ∧
        (c.lastFrame = FrameType.serverRequest ∨ c.lastFrame = FrameType.serverReply ∨
          c.lastFrame = FrameType.signal)) ∧
    (∀ p, Codec.state ⟨FrameType.newStream, some StreamType.replier, p⟩
        (Frame.serverReply cid rid b) true =
      Except.error (CodecErr.frameOutOfOrder FrameType.serverReply FrameType.newStream)) := by
  constructor
  · constructor
    · rintro ⟨c2, hok⟩
      cases hv : c.isValidServerReply true with
      | false => simp [Codec.state, hv] at hok
      | true =>
        have h2 := hv
        simp [Codec.isValidServerReply, Codec.isReplier] at h2
        exact h2
    · rintro ⟨hst, hlf⟩
      have hv : c.isValidServerReply true = true := by
        simp [Codec.isValidServerReply, Codec.isReplier, hst]
        exact hlf
      exact ⟨{ c with lastFrame := FrameType.serverReply }, by simp [Codec.state, hv, Frame.ty]⟩
  · intro p
    simp [Codec.state, Codec.isValidServerReply, Codec.isReplier, Frame.ty]

/-- Witness for C7's amended theorem: a reply attempted directly after the
`NewStream` header is rejected. -/
theorem c7_witness :
    Codec.state ⟨FrameType.newStream, some StreamType.replier, none⟩
        (Frame.serverReply 0 0 []) true =
      Except.error (CodecErr.frameOutOfOrder FrameType.serverReply FrameType.newStream) :=
  (c7_server_reply_guard ⟨FrameType.newStream, some StreamType.replier, none⟩ 0 0 []).2 none

/-- C9: when the current batch is empty and the underlying stream delivers
a frame that is neither `Message` nor `BatchMessage` (for example an
`Error` frame), `poll_next` returns `Ready(None)` — the subscriber stream
terminates without yielding any error value. -/
theorem c9_non_message_frame_ends_stream (dec : List Nat → Except Nat Nat)
    (decomp : Option (List Nat → Except Nat (List Nat)))
    (dbatch : List Nat → List (List Nat))
    (batch : Option (List (List Nat))) (evs : List StreamEv) (f : ClientFrame)
    (hb : batchPop batch = none)
    (hm : ∀ p, f ≠ ClientFrame.message p)
    (hbm : ∀ p, f ≠ ClientFrame.batchMessage p) :
    subPollNext dec decomp dbatch batch (StreamEv.item (Except.ok f) :: evs) =
      (batch, SubPoll.ready none) := by
  cases f with
  | message p => exact absurd rfl (hm p)
  | batchMessage p => exact absurd rfl (hbm p)
  | errorFrame e => simp [subPollNext, hb]
  | okFrame => simp [subPollNext, hb]

/-- Witness for C9: a broker `Error` frame terminates a fresh subscriber
stream with `Ready(None)`. -/
theorem c9_witness :
    subPollNext (fun _ => Except.ok 0) none (fun _ => []) none
        [StreamEv.item (Except.ok (ClientFrame.errorFrame 3))] =
      (none, SubPoll.ready none) :=
  c9_non_message_frame_ends_stream (fun _ => Except.ok 0) none (fun _ => []) none []
    (ClientFrame.errorFrame 3) rfl
    (fun _ h => ClientFrame.noConfusion h) (fun _ h => ClientFrame.noConfusion h)

/-- `try_reconnect` sleeps the strategy's delays in order: the slept delays
are an initial segment of the remaining attempt iterator, and on success
the iterator resumes exactly where the sleeps stopped. -/
theorem tryReconnect_sleeps (atts : List Nat) (recon : Nat → RecOut) (i : Nat) :
    ∃ rest, atts = (tryReconnect atts recon i).2 ++ rest ∧
      ∀ rem i2, (tryReconnect atts recon i).1 = Except.ok (rem, i2) → rem = rest := by
  induction atts generalizing i with
  | nil =>
    refine ⟨[], rfl, ?_⟩
    intro rem i2 h
    simp [tryReconnect] at h
  | cons d tl ih =>
    cases hr : recon i with
    | success =>
      refine ⟨tl, by simp [tryReconnect, hr], ?_⟩
      intro rem i2 h
      simp [tryReconnect, hr] at h
      exact h.1.symm
    | recov =>
      obtain ⟨rest, hatts, hok⟩ := ih (i + 1)
      refine ⟨rest, ?_, ?_⟩
      · simp only [tryReconnect, hr]
        exact congrArg (d :: ·) hatts
      · intro rem i2 h
        simp only [tryReconnect, hr] at h
        exact hok rem i2 h
    | unrecov e =>
      refine ⟨tl, by simp [tryReconnect, hr], ?_⟩
      intro rem i2 h
      simp [tryReconnect, hr] at h

/-- Across the whole `request` loop the delays slept form an initial
segment of the backoff strategy's delay list. -/
theorem requestLoop_sleeps (outs : List ReqOut) (atts : List Nat)
    (recon : Nat → RecOut) (i : Nat) :
    ∃ rest, atts = (requestLoop outs atts recon i).2 ++ rest := by
  induction outs generalizing atts i with
  | nil => exact ⟨atts, rfl⟩
  | cons o tl ih =>
    cases o with
    | okVal v => exact ⟨atts, rfl⟩
    | errUnrec e => exact ⟨atts, rfl⟩
    | errRec =>
      obtain ⟨rest1, hatts, hok⟩ := tryReconnect_sleeps atts recon i
      cases htr : tryReconnect atts recon i with
      | mk r1 sleeps =>
        cases r1 with
        | error e =>
          refine ⟨rest1, ?_⟩
          simpa [requestLoop, htr] using by rw [htr] at hatts; exact hatts
        | ok pr =>
          obtain ⟨rem, i2⟩ := pr
          have hrem : rem = rest1 := hok rem i2 (by rw [htr])
          obtain ⟨rest2, hrest2⟩ := ih rem i2
          refine ⟨rest2, ?_⟩
          simp only [requestLoop, htr]
          rw [htr] at hatts
          simp only at hatts
          rw [hatts, hrem, List.append_assoc]
          exact congrArg (sleeps ++ ·) (by rw [← hrem]; exact hrest2)

/-- `try_reconnect` fails with `TooManyRetries` exactly when every
remaining attempt's reconnection outcome is a recoverable error — the
iterator runs out before any attempt succeeds or fails unrecoverably. -/
theorem tryReconnect_tooMany_iff (atts : List Nat) (recon : Nat → RecOut) (i : Nat) :
    (tryReconnect atts recon i).1 = Except.error KAErr.tooManyRetries ↔
      ∀ j, j < atts.length → recon (i + j) = RecOut.recov := by
  induction atts generalizing i with
  | nil => simp [tryReconnect]
  | cons d tl ih =>
    cases hr : recon i with
    | success =>
      simp only [tryReconnect, hr]
      constructor
      · intro h
        exact absurd h (by simp)
      · intro h
        have h0 := h 0 (by simp)
        rw [Nat.add_zero, hr] at h0
        exact absurd h0 (by simp)
    | recov =>
      simp only [tryReconnect, hr]
      rw [ih (i + 1)]
      constructor
      · intro h j hj
        cases j with
        | zero => rw [Nat.add_zero]; exact hr
        | succ j2 =>
          have := h j2 (by simpa [Nat.succ_lt_succ_iff] using hj)
          rwa [show i + (j2 + 1) = i + 1 + j2 by omega]
      · intro h j hj
        have := h (j + 1) (by simpa [Nat.succ_lt_succ_iff] using hj)
        rwa [show i + (j + 1) = i + 1 + j by omega] at this
    | unrecov e =>
      simp only [tryReconnect, hr]
      constructor
      · intro h
        exact absurd h (by simp)
      · intro h
        have h0 := h 0 (by simp)
        rw [Nat.add_zero, hr] at h0
        exact absurd h0 (by simp)

/-- C8: the `request` loop of the keep-alive supervisor. (1) An
unrecoverable error from the request is returned immediately: no backoff
delay is slept and no reconnection is attempted. (2) Whatever the
interleaving of recoverable failures and reconnections, the slept delays
are an initial segment of the backoff strategy's delay list — reconnection
attempts are paced by the strategy. (3) `try_reconnect` (the sole producer
of `TooManyRetries`, shared by every retry round of one `request` call)
returns `TooManyRetries` exactly when its attempt iterator is exhausted
before any reconnection succeeds. -/
theorem c8_request_retry_behavior :
    (∀ (e : Nat) rest atts recon,
      kaRequest (ReqOut.errUnrec e :: rest) atts recon =
        (some (Except.error (KAErr.unrec e)), [])) ∧
    (∀ outs atts recon, ∃ rest, atts = (kaRequest outs atts recon).2 ++ rest) ∧
    (∀ atts recon i,
      (tryReconnect atts recon i).1 = Except.error KAErr.tooManyRetries ↔
        ∀ j, j < atts.length → recon (i + j) = RecOut.recov) :=
  ⟨fun _ _ _ _ => rfl,
   fun outs atts recon => requestLoop_sleeps outs atts recon 0,
   tryReconnect_tooMany_iff⟩

/-- Witness for C8 at a concrete script: an unrecoverable request error is
surfaced at once with no sleeps. -/
theorem c8_witness :
    kaRequest [ReqOut.errUnrec 5] [7] (fun _ => RecOut.success) =
      (some (Except.error (KAErr.unrec 5)), []) :=
  c8_request_retry_behavior.1 5 [] [7] (fun _ => RecOut.success)

/-- `natLE` produces exactly `w` bytes. -/
theorem natLE_length (w : Nat) : ∀ n, (natLE w n).length = w := by
  induction w with
  | zero => intro n; rfl
  | succ k ih => intro n; simp [natLE, ih]

/-- Little-endian encoding round-trips below `256 ^ w`. -/
theorem bytesToNatLE_natLE (w : Nat) : ∀ n, n < 256 ^ w → bytesToNatLE (natLE w n) = n := by
  induction w with
  | zero =>
    intro n h
    have hn : n = 0 := by simpa using h
    subst hn
    rfl
  | succ k ih =>
    intro n h
    have hdiv : n / 256 < 256 ^ k := by
      rw [pow_succ, Nat.mul_comm] at h
      exact Nat.div_lt_of_lt_mul h
    simp only [natLE, bytesToNatLE]
    rw [ih _ hdiv]
    exact Nat.mod_add_div n 256

/-- Splitting off an exact-length block. -/
theorem takeBytes_append (xs ys : List Byte) :
    takeBytes xs.length (xs ++ ys) = some (xs, ys) := by
  simp [takeBytes, List.take_left, List.drop_left]

/-- Reading back a `w`-byte little-endian field. -/
theorem parseUInt_natLE (w n : Nat) (extra : List Byte) (h : n < 256 ^ w) :
    parseUInt w (natLE w n ++ extra) = some (n, extra) := by
  have ht := takeBytes_append (natLE w n) extra
  rw [natLE_length] at ht
  simp [parseUInt, ht, bytesToNatLE_natLE w n h]

/-- Reading back a length-prefixed byte field. -/
theorem parseLenPrefixed_write (bs extra : List Byte) (h : bs.length < 256 ^ 4) :
    parseLenPrefixed (writeLenPrefixed bs ++ extra) = some (bs, extra) := by
  have h1 : writeLenPrefixed bs ++ extra = natLE 4 bs.length ++ (bs ++ extra) := by
    rw [writeLenPrefixed, List.append_assoc]
  rw [h1]
  simp [parseLenPrefixed, parseUInt_natLE 4 bs.length (bs ++ extra) h, takeBytes_append]

/-- Role discriminants decode back to the role. -/
theorem roleOfByte_roleByte (ty : StreamType) : roleOfByte (roleByte ty) = some ty := by
  cases ty <;> rfl

/-- Signal discriminants decode back to the signal kind. -/
theorem signalOfByte_signalByte (s : Signal) : signalOfByte (signalByte s) = some s := by
  cases s <;> rfl

/-- Kind dispatch on each discriminant byte. -/
theorem dispatchKind_zero (r : List Byte) : dispatchKind 0 r = parseNewStream r := rfl

/-- Kind dispatch on discriminant 1. -/
theorem dispatchKind_one (r : List Byte) :
    dispatchKind 1 r = parsePayloadBody Frame.message r := rfl

/-- Kind dispatch on discriminant 2. -/
theorem dispatchKind_two (r : List Byte) :
    dispatchKind 2 r = parsePayloadBody Frame.batch r := rfl

/-- Kind dispatch on discriminant 3. -/
theorem dispatchKind_three (r : List Byte) :
    dispatchKind 3 r = parseRequestBody Frame.request r := rfl

/-- Kind dispatch on discriminant 4. -/
theorem dispatchKind_four (r : List Byte) :
    dispatchKind 4 r = parseRequestBody Frame.reply r := rfl

/-- Kind dispatch on discriminant 5. -/
theorem dispatchKind_five (r : List Byte) :
    dispatchKind 5 r = parseServerBody Frame.serverRequest r := rfl

/-- Kind dispatch on discriminant 6. -/
theorem dispatchKind_six (r : List Byte) :
    dispatchKind 6 r = parseServerBody Frame.serverReply r := rfl

/-- Kind dispatch on discriminant 7. -/
theorem dispatchKind_seven (r : List Byte) : dispatchKind 7 r = parseSignal r := rfl

/-- Deserializing a serialized well-formed frame recovers the frame exactly
and leaves the remaining buffer untouched. -/
theorem deserializeFrame_serializeFrame (f : Frame) (extra : List Byte) (h : wfFrame f) :
    deserializeFrame (serializeFrame f ++ extra) = DeserRes.done f extra := by
  have h1 : takeBytes 4 (serializeFrame f ++ extra) =
      some (natLE 4 (1 + (frameBody f).length), kindByte f :: (frameBody f ++ extra)) := by
    rw [serializeFrame, List.append_assoc]
    have ht := takeBytes_append (natLE 4 (1 + (frameBody f).length))
      ((kindByte f :: frameBody f) ++ extra)
    rw [natLE_length] at ht
    simpa using ht
  rw [show deserializeFrame (serializeFrame f ++ extra) =
      dispatchKind (kindByte f) (frameBody f ++ extra) by rw [deserializeFrame, h1]]
  cases f with
  | newStream ty p =>
    simp only [kindByte, frameBody]
    rw [dispatchKind_zero]
    simp [parseNewStream, roleOfByte_roleByte, parseLenPrefixed_write p extra h]
  | message b =>
    simp only [kindByte, frameBody]
    rw [dispatchKind_one]
    simp [parsePayloadBody, parseLenPrefixed_write b extra h]
  | batch b =>
    simp only [kindByte, frameBody]
    rw [dispatchKind_two]
    simp [parsePayloadBody, parseLenPrefixed_write b extra h]
  | request rid b =>
    obtain ⟨hr, hb⟩ := h
    simp only [kindByte, frameBody]
    rw [dispatchKind_three, List.append_assoc]
    simp [parseRequestBody, parseUInt_natLE 4 rid (writeLenPrefixed b ++ extra) hr,
      parseLenPrefixed_write b extra hb]
  | reply rid b =>
    obtain ⟨hr, hb⟩ := h
    simp only [kindByte, frameBody]
    rw [dispatchKind_four, List.append_assoc]
    simp [parseRequestBody, parseUInt_natLE 4 rid (writeLenPrefixed b ++ extra) hr,
      parseLenPrefixed_write b extra hb]
  | serverRequest cid rid b =>
    obtain ⟨hc, hr, hb⟩ := h
    simp only [kindByte, frameBody]
    rw [dispatchKind_five, List.append_assoc, List.append_assoc]
    simp [parseServerBody,
      parseUInt_natLE 8 cid (natLE 4 rid ++ (writeLenPrefixed b ++ extra)) hc,
      parseUInt_natLE 4 rid (writeLenPrefixed b ++ extra) hr,
      parseLenPrefixed_write b extra hb]
  | serverReply cid rid b =>
    obtain ⟨hc, hr, hb⟩ := h
    simp only [kindByte, frameBody]
    rw [dispatchKind_six, List.append_assoc, List.append_assoc]
    simp [parseServerBody,
      parseUInt_natLE 8 cid (natLE 4 rid ++ (writeLenPrefixed b ++ extra)) hc,
      parseUInt_natLE 4 rid (writeLenPrefixed b ++ extra) hr,
      parseLenPrefixed_write b extra hb]
  | signal s =>
    simp only [kindByte, frameBody]
    rw [dispatchKind_seven]
    simp [parseSignal, signalOfByte_signalByte]

/-- C3 counterexample: the only frames a fresh sending codec accepts are
`NewStream` headers, and for those `decode(encode(F))` is not `F`: a fresh
receiving codec rejects the decoded `NewStream` with `FrameOutOfOrder`
(receiving `NewStream` is illegal in every direction), so the stateful
round-trip fails on the very frames the hypothesis admits. -/
theorem c3_counterexample :
    (encodeFrame codecDefault (Frame.newStream StreamType.publisher [47, 97]) []).2.2 =
      Except.ok () ∧
    decodeFrame codecDefault
        (encodeFrame codecDefault (Frame.newStream StreamType.publisher [47, 97]) []).2.1 =
      (codecDefault, Except.error (CodecErr.frameOutOfOrder FrameType.newStream FrameType.init)) :=
  ⟨rfl, rfl⟩

/-- C3 amended: the round-trip identity holds at the byte level — for every
well-formed frame, deserializing its serialization yields exactly the frame
— but not through the stateful codec pair: a fresh sending-direction codec
accepts only `NewStream` frames in `encode`, and a fresh
receiving-direction codec's `decode` rejects an encoded `NewStream` with
`FrameOutOfOrder` instead of returning it. -/
theorem c3_roundtrip_bytes_not_state (f : Frame) :
    (∀ extra, wfFrame f → deserializeFrame (serializeFrame f ++ extra) = DeserRes.done f extra) ∧
    (∀ dst c2 out, encodeFrame codecDefault f dst = (c2, out, Except.ok ()) →
      ∃ ty p, f = Frame.newStream ty p) ∧
    (∀ ty p, p.length < 256 ^ 4 →
      decodeFrame codecDefault (serializeFrame (Frame.newStream ty p)) =
        (codecDefault,
          Except.error (CodecErr.frameOutOfOrder FrameType.newStream FrameType.init))) := by
  refine ⟨fun extra h => deserializeFrame_serializeFrame f extra h, ?_, ?_⟩
  · intro dst c2 out henc
    cases f with
    | newStream ty p => exact ⟨ty, p, rfl⟩
    | message b =>
      simp [encodeFrame, Codec.state, Codec.isValidPubsub, Codec.isPublisher,
        Codec.isSubscriber, codecDefault] at henc
    | batch b =>
      simp [encodeFrame, Codec.state, Codec.isValidPubsub, Codec.isPublisher,
        Codec.isSubscriber, codecDefault] at henc
    | request rid b =>
      simp [encodeFrame, Codec.state, Codec.isValidRequest, Codec.isRequestor,
        codecDefault] at henc
    | reply rid b =>
      simp [encodeFrame, Codec.state, Codec.isValidReply, Codec.isRequestor,
        codecDefault] at henc
    | serverRequest cid rid b =>
      simp [encodeFrame, Codec.state, Codec.isValidServerRequest, Codec.isReplier,
        codecDefault] at henc
    | serverReply cid rid b =>
      simp [encodeFrame, Codec.state, Codec.isValidServerReply, Codec.isReplier,
        codecDefault] at henc
    | signal s =>
      simp [encodeFrame, Codec.state, codecDefault] at henc
  · intro ty p hp
    have hd := deserializeFrame_serializeFrame (Frame.newStream ty p) [] hp
    rw [List.append_nil] at hd
    simp [decodeFrame, hd, Codec.state, Codec.isValidNewstream, codecDefault]

/-- Witness for C3's amended theorem: a signal frame round-trips at the
byte level, and a fresh receiving codec rejects an encoded `NewStream`. -/
theorem c3_witness :
    deserializeFrame (serializeFrame (Frame.signal Signal.shutdown) ++ [0]) =
      DeserRes.done (Frame.signal Signal.shutdown) [0] ∧
    decodeFrame codecDefault (serializeFrame (Frame.newStream StreamType.subscriber [47])) =
      (codecDefault,
        Except.error (CodecErr.frameOutOfOrder FrameType.newStream FrameType.init)) :=
  ⟨(c3_roundtrip_bytes_not_state (Frame.signal Signal.shutdown)).1 [0] trivial,
   (c3_roundtrip_bytes_not_state (Frame.newStream StreamType.subscriber [47])).2.2
     StreamType.subscriber [47] (by norm_num)⟩

/-- An accepted `state` transition always records the frame's discriminant
in `last_frame`. -/
theorem state_ok_lastFrame (c : Codec) (f : Frame) (s : Bool) (c2 : Codec)
    (h : c.state f s = Except.ok c2) : c2.lastFrame = f.ty := by
  cases f <;> (simp only [Codec.state] at h; split at h) <;>
    first
      | (injection h with h2; subst h2; rfl)
      | simp at h

/-- C10: when a frame's state transition is legal but its encoded size
exceeds `MAX_FRAME_SIZE`, `encode` returns `FrameTooLarge` and writes no
bytes into the destination buffer, yet the codec already carries the
transition: `last_frame` is the rejected frame's discriminant and, for a
`NewStream`, `stream_type` and `path` are already set — the transition is
committed before the size check and is not rolled back. -/
theorem c10_size_check_after_state_commit (c c2 : Codec) (f : Frame) (dst : List Byte)
    (hs : c.state f true = Except.ok c2) (hbig : frameSize f > maxFrameSize) :
    encodeFrame c f dst =
      (c2, dst, Except.error (CodecErr.frameTooLarge (frameSize f) maxFrameSize)) ∧
    c2.lastFrame = f.ty ∧
    (∀ ty p, f = Frame.newStream ty p → c2.streamType = some ty ∧ c2.path = some p) := by
  refine ⟨?_, state_ok_lastFrame c f true c2 hs, ?_⟩
  · simp [encodeFrame, hs, hbig]
  · rintro ty p rfl
    simp only [Codec.state] at hs
    split at hs
    · injection hs with h2
      subst h2
      exact ⟨rfl, rfl⟩
    · exact absurd hs (by simp)

/-- The framed size of a `Message`: prefix, kind byte, length prefix and
payload. -/
theorem frameSize_message (b : List Byte) :
    frameSize (Frame.message b) = 4 + 1 + (4 + b.length) := by
  simp [frameSize, frameBody, writeLenPrefixed, natLE_length]

/-- Witness for C10: a publisher codec accepts a message one mebibyte of
payload heavy; `encode` rejects it as too large but `last_frame` has
already advanced to `Message`. -/
theorem c10_witness :
    encodeFrame pubCodec (Frame.message bigPayload) [] =
      (⟨FrameType.message, some StreamType.publisher, some []⟩, [],
        Except.error (CodecErr.frameTooLarge (frameSize (Frame.message bigPayload))
          maxFrameSize)) ∧
    (⟨FrameType.message, some StreamType.publisher, some []⟩ : Codec).lastFrame =
      (Frame.message bigPayload).ty :=
  have hs : pubCodec.state (Frame.message bigPayload) true =
      Except.ok ⟨FrameType.message, some StreamType.publisher, some []⟩ := rfl
  have hbig : frameSize (Frame.message bigPayload) > maxFrameSize := by
    have hlen : bigPayload.length = maxFrameSize := by
      unfold bigPayload
      exact List.length_replicate _ _
    rw [frameSize_message, hlen]
    omega
  have h := c10_size_check_after_state_commit pubCodec
    ⟨FrameType.message, some StreamType.publisher, some []⟩
    (Frame.message bigPayload) [] hs hbig
  ⟨h.1, h.2.1⟩

end Selium
